import Mathlib

/-!
Shallow embedding of the flight-dynamics engine in
`src/src/utils/flightPhysics.ts` (class `FlightPhysics`, method `update`).

Scalars are modelled as real numbers.  The single mutating method
`update(controls, deltaTime)` is modelled as a function
`update : FlightControls → ℝ → Flight → Flight × FlightControls`;
the second component of the result records the side effect on the caller's
control record (the engine clears `landingGear`, lines 269-273).

Each intermediate assignment of `update` is given its own named stage
definition, in the order the statements execute in the source; `update`
assembles the final state from the stages.  Line numbers in the doc
comments refer to `flightPhysics.ts`.
-/

namespace FlightPhysics

open Real

/-- The nine boolean control flags (`FlightControls` interface, lines 3-13). -/
structure FlightControls where
  throttle : Bool
  brake : Bool
  left : Bool
  right : Bool
  pitchUp : Bool
  pitchDown : Bool
  yawLeft : Bool
  yawRight : Bool
  landingGear : Bool

/-- The engine state: every mutable field of class `FlightPhysics`
(lines 15-44).  `position` and `rotation` (THREE.Vector3 / THREE.Euler) are
flattened into their x/y/z components; `angularVelocity` into avX/avY/avZ. -/
structure Flight where
  throttle : ℝ
  speed : ℝ
  posX : ℝ
  posY : ℝ
  posZ : ℝ
  rotX : ℝ
  rotY : ℝ
  rotZ : ℝ
  lift : ℝ
  drag : ℝ
  isGearDown : Bool
  isOnRunway : Bool
  isStalling : Bool
  stallSpeed : ℝ
  pitchInput : ℝ
  rollInput : ℝ
  yawInput : ℝ
  pitchTrim : ℝ
  rollTrim : ℝ
  avX : ℝ
  avY : ℝ
  avZ : ℝ

attribute [ext] Flight

/-- Constructor state (lines 17-45): position `(0, 0.8, -50)`, all rates and
inputs zero, gear down, `stallSpeed = 0.3`. -/
noncomputable def init : Flight where
  throttle := 0
  speed := 0
  posX := 0
  posY := 0.8
  posZ := -50
  rotX := 0
  rotY := 0
  rotZ := 0
  lift := 0
  drag := 0
  isGearDown := true
  isOnRunway := false
  isStalling := false
  stallSpeed := 0.3
  pitchInput := 0
  rollInput := 0
  yawInput := 0
  pitchTrim := 0
  rollTrim := 0
  avX := 0
  avY := 0
  avZ := 0

/-- Throttle after the ramp-up step (lines 49-51):
`if (controls.throttle) throttle = min(throttle + 0.5*dt, 1.0);`. -/
noncomputable def throttleAfterUp (c : FlightControls) (dt : ℝ) (s : Flight) : ℝ :=
  if c.throttle then min (s.throttle + 0.5 * dt) 1 else s.throttle

/-- Throttle after the brake step (lines 52-54):
`if (controls.brake) throttle = max(throttle - 0.5*dt, 0.0);`. -/
noncomputable def throttleNew (c : FlightControls) (dt : ℝ) (s : Flight) : ℝ :=
  if c.brake then max (throttleAfterUp c dt s - 0.5 * dt) 0
  else throttleAfterUp c dt s

/-- Speed after the throttle-driven stage (lines 57-68):
`maxSpeed = 3.5`, `acceleration = throttle * maxSpeed * 1.0`,
`deceleration = 0.12`; when throttle > 0 the speed approaches
`maxSpeed * throttle`, otherwise it decays toward 0. -/
noncomputable def speedPreDrag (c : FlightControls) (dt : ℝ) (s : Flight) : ℝ :=
  if throttleNew c dt s > 0 then
    min (s.speed + throttleNew c dt s * 3.5 * 1.0 * dt) (3.5 * throttleNew c dt s)
  else
    max (s.speed - 0.12 * dt) 0

/-- Speed after applying the stored (previous-frame) drag (line 71):
`speed = max(speed - drag * dt, 0)` — note `s.drag` is the field value from
the previous call, recomputed only later at line 88. -/
noncomputable def speedAfterDrag (c : FlightControls) (dt : ℝ) (s : Flight) : ℝ :=
  max (speedPreDrag c dt s - s.drag * dt) 0

/-- Runway detection (lines 74-77): `|z| < 100 && |x| < 25` and
`y <= groundHeight(0.8) + 0.1`, on the incoming position. -/
def onRunwayNew (s : Flight) : Prop :=
  (|s.posZ| < 100 ∧ |s.posX| < 25) ∧ s.posY ≤ 0.8 + 0.1

noncomputable instance (s : Flight) : Decidable (onRunwayNew s) := by
  unfold onRunwayNew; infer_instance

/-- Stall classification (lines 80-81):
`speed < stallSpeed && !isOnRunway && position.y > 2`, with the speed just
updated at line 71 and the incoming altitude. -/
def isStallingNew (c : FlightControls) (dt : ℝ) (s : Flight) : Prop :=
  speedAfterDrag c dt s < s.stallSpeed ∧ ¬ onRunwayNew s ∧ s.posY > 2

noncomputable instance (c : FlightControls) (dt : ℝ) (s : Flight) :
    Decidable (isStallingNew c dt s) := by
  unfold isStallingNew; infer_instance

/-- Drag recomputed from the just-updated speed (line 88):
`drag = speed * speed * 0.08`. -/
noncomputable def dragNew (c : FlightControls) (dt : ℝ) (s : Flight) : ℝ :=
  speedAfterDrag c dt s * speedAfterDrag c dt s * 0.08

/-- Angle-of-attack response curve (lines 96-106), keyed on the incoming
pitch angle `rotation.x`. -/
noncomputable def angleOfAttackEffect (a : ℝ) : ℝ :=
  if a < -0.3 then 0.2
  else if a ≤ 0.35 then 1.0 + a * 3.0
  else 2.0 - (a - 0.35) * 2.0

/-- Base lift (lines 108-110): `speed² * 0.3 * max(0.1, effect)`, from the
just-updated speed and the incoming pitch angle. -/
noncomputable def baseLift (c : FlightControls) (dt : ℝ) (s : Flight) : ℝ :=
  speedAfterDrag c dt s * speedAfterDrag c dt s * 0.3 *
    max 0.1 (angleOfAttackEffect s.rotX)

/-- Lift (lines 112-117): base lift, scaled by 0.2 while stalling. -/
noncomputable def liftNew (c : FlightControls) (dt : ℝ) (s : Flight) : ℝ :=
  if isStallingNew c dt s then baseLift c dt s * 0.2 else baseLift c dt s

/-- Altitude after the lift application (lines 119-129): full lift above the
takeoff speed 0.8, fraction `speed/0.8` of it above 0.4, none below. -/
noncomputable def posYAfterLift (c : FlightControls) (dt : ℝ) (s : Flight) : ℝ :=
  if speedAfterDrag c dt s > 0.8 then s.posY + liftNew c dt s * dt
  else if speedAfterDrag c dt s > 0.4 then
    s.posY + liftNew c dt s * dt * (speedAfterDrag c dt s / 0.8)
  else s.posY

/-- Altitude after gravity (lines 131-136): when not on the runway,
`y -= 0.3 * dt * (isStalling ? 2.5 : 1.0)`. -/
noncomputable def posYAfterGravity (c : FlightControls) (dt : ℝ) (s : Flight) : ℝ :=
  if ¬ onRunwayNew s then
    posYAfterLift c dt s - 0.3 * dt * (if isStallingNew c dt s then 2.5 else 1.0)
  else posYAfterLift c dt s

/-- Ground-collision clamp on altitude (lines 139-142): if the integrated
altitude is below `groundHeight (0.8)` it becomes `max(0.8, 0.5)`. -/
noncomputable def posYAfterGround (c : FlightControls) (dt : ℝ) (s : Flight) : ℝ :=
  if posYAfterGravity c dt s < 0.8 then max 0.8 0.5 else posYAfterGravity c dt s

/-- Speed after ground friction (lines 144-163): runway friction `0.2/s`,
rough-ground friction `0.8/s`, only when the ground clamp fired. -/
noncomputable def speedAfterGround (c : FlightControls) (dt : ℝ) (s : Flight) : ℝ :=
  if posYAfterGravity c dt s < 0.8 then
    if onRunwayNew s then max (speedAfterDrag c dt s - 0.2 * dt) 0
    else max (speedAfterDrag c dt s - 0.8 * dt) 0
  else speedAfterDrag c dt s

/-- Pitch angular velocity after the on-runway ground block (lines 149-159):
damping ×0.92 and, below taxi speed 0.3, a nudge toward the +0.08 rad
tail-dragger attitude (using the post-friction speed, line 154). -/
noncomputable def avXAfterGround (c : FlightControls) (dt : ℝ) (s : Flight) : ℝ :=
  if posYAfterGravity c dt s < 0.8 ∧ onRunwayNew s then
    if speedAfterGround c dt s < 0.3 then
      s.avX * 0.92 + (0.08 - s.rotX) * 0.5 * dt
    else s.avX * 0.92
  else s.avX

/-- Roll angular velocity after the on-runway ground block (line 151). -/
noncomputable def avZAfterGround (c : FlightControls) (dt : ℝ) (s : Flight) : ℝ :=
  if posYAfterGravity c dt s < 0.8 ∧ onRunwayNew s then s.avZ * 0.92 else s.avZ

/-- Speed-based control effectiveness (line 172):
`min(1.0, max(0.1, speed / 0.6))` on the post-ground speed. -/
noncomputable def speedEffectiveness (c : FlightControls) (dt : ℝ) (s : Flight) : ℝ :=
  min 1.0 (max 0.1 (speedAfterGround c dt s / 0.6))

/-- Target pitch input (lines 175-179): pitchUp → -1, else pitchDown → 1, else 0. -/
def targetPitchInput (c : FlightControls) : ℝ :=
  if c.pitchUp then -1.0 else if c.pitchDown then 1.0 else 0.0

/-- Target roll input (line 180): right → 1, else left → -1, else 0. -/
def targetRollInput (c : FlightControls) : ℝ :=
  if c.right then 1.0 else if c.left then -1.0 else 0.0

/-- Target yaw input (lines 181-185): yawRight → 1, else yawLeft → -1, else 0. -/
def targetYawInput (c : FlightControls) : ℝ :=
  if c.yawRight then 1.0 else if c.yawLeft then -1.0 else 0.0

/-- Smoothed pitch input (lines 188-189):
`pitchInput += (target - pitchInput) * 15.0 * dt`. -/
noncomputable def pitchInputNew (c : FlightControls) (dt : ℝ) (s : Flight) : ℝ :=
  s.pitchInput + (targetPitchInput c - s.pitchInput) * 15.0 * dt

/-- Smoothed roll input (lines 190-191). -/
noncomputable def rollInputNew (c : FlightControls) (dt : ℝ) (s : Flight) : ℝ :=
  s.rollInput + (targetRollInput c - s.rollInput) * 15.0 * dt

/-- Smoothed yaw input (lines 192-193). -/
noncomputable def yawInputNew (c : FlightControls) (dt : ℝ) (s : Flight) : ℝ :=
  s.yawInput + (targetYawInput c - s.yawInput) * 15.0 * dt

/-- Auto pitch trim (lines 196-201): when `|pitchInput| < 0.1` (smoothed) and
speed > 0.4, `pitchTrim += rotation.x * (0.3 * dt)`, clamped to [-0.3, 0.3]. -/
noncomputable def pitchTrimNew (c : FlightControls) (dt : ℝ) (s : Flight) : ℝ :=
  if |pitchInputNew c dt s| < 0.1 ∧ speedAfterGround c dt s > 0.4 then
    max (-0.3) (min 0.3 (s.pitchTrim + s.rotX * (0.3 * dt)))
  else s.pitchTrim

/-- Auto roll trim (lines 203-207): when `|rollInput| < 0.1` and speed > 0.4,
`rollTrim += rotation.z * (0.5 * dt)`, clamped to [-0.2, 0.2]. -/
noncomputable def rollTrimNew (c : FlightControls) (dt : ℝ) (s : Flight) : ℝ :=
  if |rollInputNew c dt s| < 0.1 ∧ speedAfterGround c dt s > 0.4 then
    max (-0.2) (min 0.2 (s.rollTrim + s.rotZ * (0.5 * dt)))
  else s.rollTrim

/-- Pitch angular velocity after the control force (lines 210-214):
`avX += pitchInput * 1.0 * effectiveness * 1.0 * dt` when speed > 0.1. -/
noncomputable def avXAfterControls (c : FlightControls) (dt : ℝ) (s : Flight) : ℝ :=
  if speedAfterGround c dt s > 0.1 then
    avXAfterGround c dt s + pitchInputNew c dt s * 1.0 * speedEffectiveness c dt s * 1.0 * dt
  else avXAfterGround c dt s

/-- Roll angular velocity after the control force (lines 216-219): factor 1.4. -/
noncomputable def avZAfterControls (c : FlightControls) (dt : ℝ) (s : Flight) : ℝ :=
  if speedAfterGround c dt s > 0.1 then
    avZAfterGround c dt s + rollInputNew c dt s * 1.0 * speedEffectiveness c dt s * 1.4 * dt
  else avZAfterGround c dt s

/-- Yaw angular velocity after the control force (lines 221-224): factor 0.8. -/
noncomputable def avYAfterControls (c : FlightControls) (dt : ℝ) (s : Flight) : ℝ :=
  if speedAfterGround c dt s > 0.1 then
    s.avY + yawInputNew c dt s * 1.0 * speedEffectiveness c dt s * 0.8 * dt
  else s.avY

/-- Pitch angular velocity after the stability force (lines 228-235):
`avX += -(rotation.x - pitchTrim) * (effectiveness * 0.6) * 1.2 * dt`,
using the just-updated trim. -/
noncomputable def avXAfterStability (c : FlightControls) (dt : ℝ) (s : Flight) : ℝ :=
  if speedAfterGround c dt s > 0.1 then
    avXAfterControls c dt s +
      -(s.rotX - pitchTrimNew c dt s) * (speedEffectiveness c dt s * 0.6) * 1.2 * dt
  else avXAfterControls c dt s

/-- Roll angular velocity after the stability force (lines 237-241): factor 1.8. -/
noncomputable def avZAfterStability (c : FlightControls) (dt : ℝ) (s : Flight) : ℝ :=
  if speedAfterGround c dt s > 0.1 then
    avZAfterControls c dt s +
      -(s.rotZ - rollTrimNew c dt s) * (speedEffectiveness c dt s * 0.6) * 1.8 * dt
  else avZAfterControls c dt s

/-- Yaw angular velocity after the stability force (lines 243-245): factor 0.5,
relaxing toward zero (yaw has no trim). -/
noncomputable def avYAfterStability (c : FlightControls) (dt : ℝ) (s : Flight) : ℝ :=
  if speedAfterGround c dt s > 0.1 then
    avYAfterControls c dt s + -s.rotY * (speedEffectiveness c dt s * 0.6) * 0.5 * dt
  else avYAfterControls c dt s

/-- Final pitch angular velocity after damping (lines 249-250):
`avX *= max(0, 1 - 2.8 * dt)`. -/
noncomputable def avXFinal (c : FlightControls) (dt : ℝ) (s : Flight) : ℝ :=
  avXAfterStability c dt s * max 0 (1 - 2.8 * dt)

/-- Final yaw angular velocity after damping (line 251). -/
noncomputable def avYFinal (c : FlightControls) (dt : ℝ) (s : Flight) : ℝ :=
  avYAfterStability c dt s * max 0 (1 - 2.8 * dt)

/-- Final roll angular velocity after damping (line 252). -/
noncomputable def avZFinal (c : FlightControls) (dt : ℝ) (s : Flight) : ℝ :=
  avZAfterStability c dt s * max 0 (1 - 2.8 * dt)

/-- Pitch after integration and the ±π/3 clamp (lines 255, 260-263). -/
noncomputable def rotXNew (c : FlightControls) (dt : ℝ) (s : Flight) : ℝ :=
  max (-(π / 3)) (min (π / 3) (s.rotX + avXFinal c dt s * dt))

/-- Yaw after integration (line 256); yaw is not clamped. -/
noncomputable def rotYNew (c : FlightControls) (dt : ℝ) (s : Flight) : ℝ :=
  s.rotY + avYFinal c dt s * dt

/-- Roll after integration and the ±π/2 clamp (lines 257, 264-267). -/
noncomputable def rotZNew (c : FlightControls) (dt : ℝ) (s : Flight) : ℝ :=
  max (-(π / 2)) (min (π / 2) (s.rotZ + avZFinal c dt s * dt))

/-- X component of `(0,0,1).applyEuler(rotation)` for a THREE `Euler` in the
default XYZ order: the third column of `Rx(x)·Ry(y)·Rz(z)` is
`(sin y, -sin x · cos y, cos x · cos y)`; the engine reads its x and z
entries (lines 276-279). -/
noncomputable def forwardX (c : FlightControls) (dt : ℝ) (s : Flight) : ℝ :=
  Real.sin (rotYNew c dt s)

/-- Z component of the forward vector (see `forwardX`). -/
noncomputable def forwardZ (c : FlightControls) (dt : ℝ) (s : Flight) : ℝ :=
  Real.cos (rotXNew c dt s) * Real.cos (rotYNew c dt s)

/-- X position after the translation (line 278): `x += forward.x * speed`
(note: no `dt` factor in the source). -/
noncomputable def posXMoved (c : FlightControls) (dt : ℝ) (s : Flight) : ℝ :=
  s.posX + forwardX c dt s * speedAfterGround c dt s

/-- Z position after the translation (line 279). -/
noncomputable def posZMoved (c : FlightControls) (dt : ℝ) (s : Flight) : ℝ :=
  s.posZ + forwardZ c dt s * speedAfterGround c dt s

/-- World wrap for one horizontal coordinate (lines 282-285):
`if (v > 800) v = -800; if (v < -800) v = 800;`. -/
noncomputable def wrapCoord (v : ℝ) : ℝ :=
  if (if v > 800 then -800 else v) < -800 then 800
  else (if v > 800 then -800 else v)

/-- Final altitude after the 200-unit cap (line 286). -/
noncomputable def posYFinal (c : FlightControls) (dt : ℝ) (s : Flight) : ℝ :=
  if posYAfterGround c dt s > 200 then 200 else posYAfterGround c dt s

/-- One call of `FlightPhysics.update(controls, deltaTime)` (lines 47-287).
The first component is the new engine state, the second the caller's control
record after the engine's side effect on `landingGear` (lines 269-273). -/
noncomputable def update (c : FlightControls) (dt : ℝ) (s : Flight) :
    Flight × FlightControls :=
  ({ throttle := throttleNew c dt s
     speed := speedAfterGround c dt s
     posX := wrapCoord (posXMoved c dt s)
     posY := posYFinal c dt s
     posZ := wrapCoord (posZMoved c dt s)
     rotX := rotXNew c dt s
     rotY := rotYNew c dt s
     rotZ := rotZNew c dt s
     lift := liftNew c dt s
     drag := dragNew c dt s
     isGearDown := if c.landingGear then ! s.isGearDown else s.isGearDown
     isOnRunway := decide (onRunwayNew s)
     isStalling := decide (isStallingNew c dt s)
     stallSpeed := s.stallSpeed
     pitchInput := pitchInputNew c dt s
     rollInput := rollInputNew c dt s
     yawInput := yawInputNew c dt s
     pitchTrim := pitchTrimNew c dt s
     rollTrim := rollTrimNew c dt s
     avX := avXFinal c dt s
     avY := avYFinal c dt s
     avZ := avZFinal c dt s },
   if c.landingGear then { c with landingGear := false } else c)

/-- Controls with every flag unset. -/
def noControls : FlightControls where
  throttle := false
  brake := false
  left := false
  right := false
  pitchUp := false
  pitchDown := false
  yawLeft := false
  yawRight := false
  landingGear := false

/-- The bounds the specification asserts for every reachable state:
throttle in [0,1], speed ≥ 0, pitch in [-π/3, π/3], roll in [-π/2, π/2],
pitchTrim in [-0.3, 0.3], rollTrim in [-0.2, 0.2], x and z in [-800, 800],
altitude ≤ 200. -/
def InBounds (s : Flight) : Prop :=
  0 ≤ s.throttle ∧ s.throttle ≤ 1 ∧
  0 ≤ s.speed ∧
  -(π / 3) ≤ s.rotX ∧ s.rotX ≤ π / 3 ∧
  -(π / 2) ≤ s.rotZ ∧ s.rotZ ≤ π / 2 ∧
  -0.3 ≤ s.pitchTrim ∧ s.pitchTrim ≤ 0.3 ∧
  -0.2 ≤ s.rollTrim ∧ s.rollTrim ≤ 0.2 ∧
  -800 ≤ s.posX ∧ s.posX ≤ 800 ∧
  -800 ≤ s.posZ ∧ s.posZ ≤ 800 ∧
  s.posY ≤ 200

/-- States reachable from the constructor state by any sequence of `update`
calls with nonnegative time slices and arbitrary control flags. -/
inductive Reachable : Flight → Prop
  | init : Reachable init
  | step (c : FlightControls) (dt : ℝ) (s : Flight) :
      Reachable s → 0 ≤ dt → Reachable (update c dt s).1

lemma throttleAfterUp_nonneg {c : FlightControls} {dt : ℝ} {s : Flight}
    (hdt : 0 ≤ dt) (h : 0 ≤ s.throttle) : 0 ≤ throttleAfterUp c dt s := by
  unfold throttleAfterUp
  split_ifs with hc
  · exact le_min (by linarith) (by norm_num)
  · exact h

lemma throttleAfterUp_le_one {c : FlightControls} {dt : ℝ} {s : Flight}
    (h : s.throttle ≤ 1) : throttleAfterUp c dt s ≤ 1 := by
  unfold throttleAfterUp
  split_ifs with hc
  · exact min_le_right _ _
  · exact h

lemma throttleNew_nonneg {c : FlightControls} {dt : ℝ} {s : Flight}
    (hdt : 0 ≤ dt) (h : 0 ≤ s.throttle) : 0 ≤ throttleNew c dt s := by
  unfold throttleNew
  split_ifs with hb
  · exact le_max_right _ _
  · exact throttleAfterUp_nonneg hdt h

lemma throttleNew_le_one {c : FlightControls} {dt : ℝ} {s : Flight}
    (hdt : 0 ≤ dt) (h : s.throttle ≤ 1) : throttleNew c dt s ≤ 1 := by
  unfold throttleNew
  have h1 := @throttleAfterUp_le_one c dt s h
  split_ifs with hb
  · exact max_le (by linarith) (by norm_num)
  · exact h1

lemma speedAfterDrag_nonneg (c : FlightControls) (dt : ℝ) (s : Flight) :
    0 ≤ speedAfterDrag c dt s :=
  le_max_right _ _

lemma speedAfterGround_nonneg (c : FlightControls) (dt : ℝ) (s : Flight) :
    0 ≤ speedAfterGround c dt s := by
  unfold speedAfterGround
  split_ifs
  · exact le_max_right _ _
  · exact le_max_right _ _
  · exact speedAfterDrag_nonneg c dt s

lemma rotXNew_mem (c : FlightControls) (dt : ℝ) (s : Flight) :
    -(π / 3) ≤ rotXNew c dt s ∧ rotXNew c dt s ≤ π / 3 := by
  have hπ := Real.pi_pos
  refine ⟨le_max_left _ _, max_le (by linarith) (min_le_left _ _)⟩

lemma rotZNew_mem (c : FlightControls) (dt : ℝ) (s : Flight) :
    -(π / 2) ≤ rotZNew c dt s ∧ rotZNew c dt s ≤ π / 2 := by
  have hπ := Real.pi_pos
  refine ⟨le_max_left _ _, max_le (by linarith) (min_le_left _ _)⟩

lemma pitchTrimNew_mem {c : FlightControls} {dt : ℝ} {s : Flight}
    (h1 : -0.3 ≤ s.pitchTrim) (h2 : s.pitchTrim ≤ 0.3) :
    -0.3 ≤ pitchTrimNew c dt s ∧ pitchTrimNew c dt s ≤ 0.3 := by
  unfold pitchTrimNew
  split_ifs with hc
  · exact ⟨le_max_left _ _, max_le (by norm_num) (min_le_left _ _)⟩
  · exact ⟨h1, h2⟩

lemma rollTrimNew_mem {c : FlightControls} {dt : ℝ} {s : Flight}
    (h1 : -0.2 ≤ s.rollTrim) (h2 : s.rollTrim ≤ 0.2) :
    -0.2 ≤ rollTrimNew c dt s ∧ rollTrimNew c dt s ≤ 0.2 := by
  unfold rollTrimNew
  split_ifs with hc
  · exact ⟨le_max_left _ _, max_le (by norm_num) (min_le_left _ _)⟩
  · exact ⟨h1, h2⟩

lemma wrapCoord_mem (v : ℝ) : -800 ≤ wrapCoord v ∧ wrapCoord v ≤ 800 := by
  unfold wrapCoord
  by_cases h1 : v > 800
  · simp only [if_pos h1]
    norm_num
  · simp only [if_neg h1]
    by_cases h2 : v < -800
    · simp only [if_pos h2]
      norm_num
    · simp only [if_neg h2]
      push_neg at h1 h2
      exact ⟨by linarith, h1⟩

lemma posYAfterGround_ge (c : FlightControls) (dt : ℝ) (s : Flight) :
    0.8 ≤ posYAfterGround c dt s := by
  unfold posYAfterGround
  split_ifs with h
  · exact le_max_left _ _
  · linarith [not_lt.mp h]

lemma posYFinal_mem (c : FlightControls) (dt : ℝ) (s : Flight) :
    0.8 ≤ posYFinal c dt s ∧ posYFinal c dt s ≤ 200 := by
  unfold posYFinal
  have h := posYAfterGround_ge c dt s
  split_ifs with h1
  · norm_num
  · exact ⟨h, not_lt.mp h1⟩

/-- One `update` call preserves the bound record, for any controls and any
nonnegative time slice. -/
lemma inBounds_update {s : Flight} (c : FlightControls) {dt : ℝ}
    (hdt : 0 ≤ dt) (h : InBounds s) : InBounds (update c dt s).1 := by
  obtain ⟨ht0, ht1, hsp, _, _, _, _, hpt0, hpt1, hrt0, hrt1, _, _, _, _, _⟩ := h
  refine ⟨throttleNew_nonneg hdt ht0, throttleNew_le_one hdt ht1,
    speedAfterGround_nonneg c dt s,
    (rotXNew_mem c dt s).1, (rotXNew_mem c dt s).2,
    (rotZNew_mem c dt s).1, (rotZNew_mem c dt s).2,
    (pitchTrimNew_mem hpt0 hpt1).1, (pitchTrimNew_mem hpt0 hpt1).2,
    (rollTrimNew_mem hrt0 hrt1).1, (rollTrimNew_mem hrt0 hrt1).2,
    (wrapCoord_mem (posXMoved c dt s)).1, (wrapCoord_mem (posXMoved c dt s)).2,
    (wrapCoord_mem (posZMoved c dt s)).1, (wrapCoord_mem (posZMoved c dt s)).2,
    (posYFinal_mem c dt s).2⟩

lemma inBounds_init : InBounds init := by
  have hπ := Real.pi_pos
  unfold InBounds init
  norm_num
  constructor <;> linarith

/-- C1: for every state reachable from the initial state
(position (0, 0.8, -50), all rates and inputs zero, gear down) by any
sequence of `update` calls with `dt ≥ 0` and arbitrary control flags, the
bounds hold after every call: throttle in [0,1], speed ≥ 0, pitch
(rotation.x) in [-π/3, π/3], roll (rotation.z) in [-π/2, π/2], pitchTrim in
[-0.3, 0.3], rollTrim in [-0.2, 0.2], position.x and position.z in
[-800, 800], and position.y ≤ 200. -/
theorem C1_reachable_bounds (s : Flight) (h : Reachable s) : InBounds s := by
  induction h with
  | init => exact inBounds_init
  | step c dt t hr hdt ih => exact inBounds_update c hdt ih

/-- Witness for C1: the bounds at the concrete reachable state obtained by
one `update` call from the initial state. -/
theorem C1_reachable_bounds_witness : InBounds (update noControls 1 init).1 :=
  C1_reachable_bounds _
    (Reachable.step noControls 1 init Reachable.init zero_le_one)

/-- C3: in every call, drag is recomputed as `speed² * 0.08` from the
just-updated speed, lift is `speed² * 0.3 * max(0.1, effect)` scaled by 0.2
while stalling, with `effect` the stated piecewise function of the pitch
angle; and the drag subtracted from the speed during a call is the value
stored by the previous call (one frame stale), as shown by the chained-call
equation. -/
theorem C3_aero_model (c : FlightControls) (dt : ℝ) (s : Flight)
    (c2 : FlightControls) (dt2 : ℝ) :
    (update c dt s).1.drag = speedAfterDrag c dt s * speedAfterDrag c dt s * 0.08 ∧
    (update c dt s).1.lift =
      (if isStallingNew c dt s then 0.2 else 1) *
        (speedAfterDrag c dt s * speedAfterDrag c dt s * 0.3 *
          max 0.1 (if s.rotX < -0.3 then 0.2
            else if s.rotX ≤ 0.35 then 1.0 + 3.0 * s.rotX
            else 2.0 - 2.0 * (s.rotX - 0.35))) ∧
    speedAfterDrag c dt s = max (speedPreDrag c dt s - s.drag * dt) 0 ∧
    speedAfterDrag c2 dt2 (update c dt s).1 =
      max (speedPreDrag c2 dt2 (update c dt s).1 -
        speedAfterDrag c dt s * speedAfterDrag c dt s * 0.08 * dt2) 0 := by
  have heff : angleOfAttackEffect s.rotX =
      (if s.rotX < -0.3 then 0.2
        else if s.rotX ≤ 0.35 then 1.0 + 3.0 * s.rotX
        else 2.0 - 2.0 * (s.rotX - 0.35)) := by
    unfold angleOfAttackEffect
    split_ifs <;> ring
  refine ⟨rfl, ?_, rfl, rfl⟩
  show liftNew c dt s = _
  unfold liftNew baseLift
  rw [heff]
  split_ifs <;> ring

/-- C5 (amended): in every call, when `|pitchInput| < 0.1` (smoothed) and
speed > 0.4, pitchTrim is incremented by the current pitch angle times
`0.3 * dt` and clamped to [-0.3, 0.3]; symmetrically rollTrim is incremented
by the roll angle times `0.5 * dt` and clamped to [-0.2, 0.2]; otherwise the
trim value is unchanged. -/
theorem C5_auto_trim (c : FlightControls) (dt : ℝ) (s : Flight) :
    (update c dt s).1.pitchTrim =
      (if |pitchInputNew c dt s| < 0.1 ∧ speedAfterGround c dt s > 0.4 then
        max (-0.3) (min 0.3 (s.pitchTrim + s.rotX * (0.3 * dt)))
      else s.pitchTrim) ∧
    (update c dt s).1.rollTrim =
      (if |rollInputNew c dt s| < 0.1 ∧ speedAfterGround c dt s > 0.4 then
        max (-0.2) (min 0.2 (s.rollTrim + s.rotZ * (0.5 * dt)))
      else s.rollTrim) :=
  ⟨rfl, rfl⟩

/-- C7: `update` treats the caller's control record as read-only except for
`landingGear`: the eight other flags are returned unchanged, `landingGear`
is false on return, `isGearDown` flips exactly when the flag was set, and a
second call with the returned record does not flip the gear again. -/
theorem C7_controls_frame (c : FlightControls) (dt dt2 : ℝ) (s : Flight) :
    ((update c dt s).2.throttle = c.throttle ∧
     (update c dt s).2.brake = c.brake ∧
     (update c dt s).2.left = c.left ∧
     (update c dt s).2.right = c.right ∧
     (update c dt s).2.pitchUp = c.pitchUp ∧
     (update c dt s).2.pitchDown = c.pitchDown ∧
     (update c dt s).2.yawLeft = c.yawLeft ∧
     (update c dt s).2.yawRight = c.yawRight) ∧
    (update c dt s).2.landingGear = false ∧
    (update c dt s).1.isGearDown =
      (if c.landingGear then ! s.isGearDown else s.isGearDown) ∧
    (update (update c dt s).2 dt2 (update c dt s).1).1.isGearDown =
      (update c dt s).1.isGearDown := by
  cases hc : c.landingGear <;> simp [update, hc]

/-- C9: in every call with `dt ≥ 0`, if the altitude after the lift/gravity
integration falls below the ground height 0.8, it is set to
`max(0.8, 0.5)`; consequently the altitude after the call is at least 0.5
and never negative. -/
theorem C9_ground_clamp (c : FlightControls) (dt : ℝ) (s : Flight)
    (_hdt : 0 ≤ dt) :
    (posYAfterGravity c dt s < 0.8 →
      posYAfterGround c dt s = max 0.8 0.5 ∧
      (update c dt s).1.posY = max 0.8 0.5) ∧
    0.5 ≤ (update c dt s).1.posY ∧ 0 ≤ (update c dt s).1.posY := by
  have hmem := posYFinal_mem c dt s
  have hup : (update c dt s).1.posY = posYFinal c dt s := rfl
  rw [hup]
  refine ⟨fun h => ?_, by linarith [hmem.1], by linarith [hmem.1]⟩
  have hg : posYAfterGround c dt s = max 0.8 0.5 := by
    unfold posYAfterGround
    rw [if_pos h]
  have hmax : (max 0.8 0.5 : ℝ) = 0.8 := max_eq_left (by norm_num)
  refine ⟨hg, ?_⟩
  unfold posYFinal
  rw [hg, hmax, if_neg (by norm_num)]

/-- Witness for C9 at a concrete call: one step from the initial state with
`dt = 1`. -/
theorem C9_ground_clamp_witness :
    (posYAfterGravity noControls 1 init < 0.8 →
      posYAfterGround noControls 1 init = max 0.8 0.5 ∧
      (update noControls 1 init).1.posY = max 0.8 0.5) ∧
    0.5 ≤ (update noControls 1 init).1.posY ∧
    0 ≤ (update noControls 1 init).1.posY :=
  C9_ground_clamp noControls 1 init zero_le_one

set_option maxHeartbeats 4000000 in
/-- C10: the landing-gear state has no effect on the physics: two states
differing only in `isGearDown`, advanced with the same control record
(`landingGear` false) and the same `dt`, yield states that again differ only
in `isGearDown`, and the same returned control record. -/
theorem C10_gear_noninterference (c : FlightControls) (dt : ℝ) (s : Flight)
    (b : Bool) (h : c.landingGear = false) :
    (update c dt { s with isGearDown := b }).1 =
      { (update c dt s).1 with isGearDown := b } ∧
    (update c dt { s with isGearDown := b }).2 = (update c dt s).2 := by
  refine ⟨?_, rfl⟩
  ext <;> first | rfl | simp [update, h]

/-- Witness for C10: the concrete instance at the initial state with all
flags unset and the gear raised. -/
theorem C10_gear_noninterference_witness :
    (update noControls 1 { init with isGearDown := false }).1 =
      { (update noControls 1 init).1 with isGearDown := false } ∧
    (update noControls 1 { init with isGearDown := false }).2 =
      (update noControls 1 init).2 :=
  C10_gear_noninterference noControls 1 init false rfl

/-- Controls holding only the throttle flag. -/
def throttleOnly : FlightControls := { noControls with throttle := true }

/-- One engine step with the throttle flag held and `dt = 0.016`
(the claimed 2-second scenario runs 125 such steps). -/
noncomputable def throttleStep (s : Flight) : Flight :=
  (update throttleOnly 0.016 s).1

lemma throttleStep_throttle (s : Flight) :
    (throttleStep s).throttle = min (s.throttle + 0.5 * 0.016) 1 := rfl

lemma min_one_add (a b : ℝ) (hb : 0 ≤ b) :
    min (min a 1 + b) 1 = min (a + b) 1 := by
  rcases le_total a 1 with h | h
  · rw [min_eq_left h]
  · rw [min_eq_right h, min_eq_right (by linarith), min_eq_right (by linarith)]

lemma throttleStep_iterate (s : Flight) (h : s.throttle = 0) (n : ℕ) :
    (throttleStep^[n] s).throttle = min (0.008 * (n : ℝ)) 1 := by
  induction n with
  | zero =>
      rw [Function.iterate_zero_apply, h]
      norm_num
  | succ n ih =>
      rw [Function.iterate_succ_apply', throttleStep_throttle, ih]
      have : (0.5 : ℝ) * 0.016 = 0.008 := by norm_num
      rw [this, min_one_add _ _ (by norm_num)]
      push_cast
      ring_nf

/-- C8: starting from `throttle = 0` and holding the throttle flag (brake
false) for 125 steps of `dt = 0.016` (2 simulated seconds), the throttle
reaches exactly 1 and never exceeds 1 at any step; each held-throttle call
yields `min (throttle + 0.5 * dt) 1`. -/
theorem C8_throttle_ramp (s : Flight) (h : s.throttle = 0) :
    (throttleStep^[125] s).throttle = 1 ∧
    (∀ n : ℕ, (throttleStep^[n] s).throttle ≤ 1) ∧
    (∀ t : Flight, (throttleStep t).throttle = min (t.throttle + 0.5 * 0.016) 1) := by
  refine ⟨?_, fun n => ?_, fun t => throttleStep_throttle t⟩
  · rw [throttleStep_iterate s h 125]
    norm_num
  · rw [throttleStep_iterate s h n]
    exact min_le_right _ _

/-- Witness for C8: the ramp property at the concrete initial state. -/
theorem C8_throttle_ramp_witness :
    (throttleStep^[125] init).throttle = 1 ∧
    (∀ n : ℕ, (throttleStep^[n] init).throttle ≤ 1) ∧
    (∀ t : Flight, (throttleStep t).throttle = min (t.throttle + 0.5 * 0.016) 1) :=
  C8_throttle_ramp init rfl

/-- Airborne test state: altitude 10, speed 0.2, everything else as at
construction (throttle 0, zero attitude and rates). -/
noncomputable def stallStateSlow : Flight := { init with speed := 0.2, posY := 10 }

/-- Airborne test state: altitude 10, speed 0.5. -/
noncomputable def stallStateFast : Flight := { init with speed := 0.5, posY := 10 }

lemma stallStateSlow_speedAfterDrag :
    speedAfterDrag noControls 0.016 stallStateSlow = 0.19808 := by
  have ht : throttleNew noControls 0.016 stallStateSlow = 0 := rfl
  unfold speedAfterDrag speedPreDrag
  rw [ht]
  norm_num [stallStateSlow, init, max_def]

lemma stallStateFast_speedAfterDrag :
    speedAfterDrag noControls 0.016 stallStateFast = 0.49808 := by
  have ht : throttleNew noControls 0.016 stallStateFast = 0 := rfl
  unfold speedAfterDrag speedPreDrag
  rw [ht]
  norm_num [stallStateFast, init, max_def]

lemma stallStateSlow_notRunway : ¬ onRunwayNew stallStateSlow := by
  intro h
  have := h.2
  norm_num [stallStateSlow, init] at this

lemma stallStateFast_notRunway : ¬ onRunwayNew stallStateFast := by
  intro h
  have := h.2
  norm_num [stallStateFast, init] at this

/-- C2: after one call, `isStalling` holds iff the post-drag-stage speed is
below the stall speed 0.3, the aircraft is not on the runway (recomputed
geometrically as `|x| < 25 ∧ |z| < 100 ∧ y ≤ 0.8 + 0.1` on the incoming
position), and the incoming altitude exceeds 2; concretely, one call with
`dt = 0.016` and no controls from speed 0.2 at altitude 10 off the runway
makes it true, and from speed 0.5 makes it false. -/
theorem C2_stall_rule :
    (∀ (c : FlightControls) (dt : ℝ) (s : Flight), s.stallSpeed = 0.3 →
      ((update c dt s).1.isStalling = true ↔
        (speedAfterDrag c dt s < 0.3 ∧
          ¬ ((|s.posZ| < 100 ∧ |s.posX| < 25) ∧ s.posY ≤ 0.8 + 0.1) ∧
          s.posY > 2))) ∧
    (update noControls 0.016 stallStateSlow).1.isStalling = true ∧
    (update noControls 0.016 stallStateFast).1.isStalling = false := by
  refine ⟨fun c dt s h => ?_, ?_, ?_⟩
  · show decide (isStallingNew c dt s) = true ↔ _
    rw [decide_eq_true_eq]
    unfold isStallingNew onRunwayNew
    rw [h]
  · show decide (isStallingNew noControls 0.016 stallStateSlow) = true
    rw [decide_eq_true_eq]
    refine ⟨?_, stallStateSlow_notRunway, ?_⟩
    · rw [stallStateSlow_speedAfterDrag]
      norm_num [stallStateSlow, init]
    · norm_num [stallStateSlow, init]
  · show decide (isStallingNew noControls 0.016 stallStateFast) = false
    rw [decide_eq_false_iff_not]
    intro h
    have := h.1
    rw [stallStateFast_speedAfterDrag] at this
    norm_num [stallStateFast, init] at this

/-- Witness for C2: the general stall rule instantiated at the concrete slow
airborne state. -/
theorem C2_stall_rule_witness :
    (update noControls 0.016 stallStateSlow).1.isStalling = true ↔
      (speedAfterDrag noControls 0.016 stallStateSlow < 0.3 ∧
        ¬ ((|stallStateSlow.posZ| < 100 ∧ |stallStateSlow.posX| < 25) ∧
            stallStateSlow.posY ≤ 0.8 + 0.1) ∧
        stallStateSlow.posY > 2) :=
  C2_stall_rule.1 noControls 0.016 stallStateSlow rfl

/-- Airborne test state at the far edge of the world: altitude 10, speed 3,
z = 799, level attitude and zero yaw. -/
noncomputable def wrapState : Flight := { init with speed := 3, posY := 10, posZ := 799 }

lemma wrapState_speedAfterDrag : speedAfterDrag noControls 1 wrapState = 2.88 := by
  have ht : throttleNew noControls 1 wrapState = 0 := rfl
  unfold speedAfterDrag speedPreDrag
  rw [ht]
  norm_num [wrapState, init, max_def]

lemma wrapState_notRunway : ¬ onRunwayNew wrapState := by
  intro h
  have := h.2
  norm_num [wrapState, init] at this

lemma wrapState_notStalling : ¬ isStallingNew noControls 1 wrapState := by
  intro h
  have := h.1
  rw [wrapState_speedAfterDrag] at this
  norm_num [wrapState, init] at this

lemma wrapState_lift : liftNew noControls 1 wrapState = 2.48832 := by
  unfold liftNew baseLift
  rw [if_neg wrapState_notStalling, wrapState_speedAfterDrag]
  norm_num [wrapState, init, angleOfAttackEffect, max_def]

lemma wrapState_posYAfterGravity :
    posYAfterGravity noControls 1 wrapState = 12.18832 := by
  unfold posYAfterGravity posYAfterLift
  rw [if_pos wrapState_notRunway, wrapState_speedAfterDrag,
    if_pos (by norm_num : (2.88 : ℝ) > 0.8), wrapState_lift,
    if_neg wrapState_notStalling]
  norm_num [wrapState, init]

lemma wrapState_speedAfterGround :
    speedAfterGround noControls 1 wrapState = 2.88 := by
  unfold speedAfterGround
  rw [wrapState_posYAfterGravity, if_neg (by norm_num : ¬ (12.18832 : ℝ) < 0.8)]
  exact wrapState_speedAfterDrag

lemma wrapState_rotXNew : rotXNew noControls 1 wrapState = 0 := by
  have hav : avXFinal noControls 1 wrapState = 0 := by
    unfold avXFinal
    norm_num [max_def]
  unfold rotXNew
  rw [hav]
  have h1 : wrapState.rotX + 0 * 1 = 0 := by norm_num [wrapState, init]
  rw [h1, min_eq_right (by positivity), max_eq_right (neg_nonpos.mpr (by positivity))]

lemma wrapState_rotYNew : rotYNew noControls 1 wrapState = 0 := by
  have hav : avYFinal noControls 1 wrapState = 0 := by
    unfold avYFinal
    norm_num [max_def]
  unfold rotYNew
  rw [hav]
  norm_num [wrapState, init]

lemma wrapState_posZMoved : posZMoved noControls 1 wrapState = 801.88 := by
  unfold posZMoved forwardZ
  rw [wrapState_rotXNew, wrapState_rotYNew, wrapState_speedAfterGround]
  norm_num [wrapState, init]

/-- C6: from z = 799 moving forward (level, yaw zero) at speed 3, one call
with `dt = 1` crosses z = 800 (the pre-wrap z is 801.88 > 800) and wraps z
to a negative value (exactly -800, within 2 units of -800 + overshoot);
after every call x and z lie in [-800, 800]; and the position advances
along x/z by the forward direction times the speed, then wraps. -/
theorem C6_world_wrap :
    posZMoved noControls 1 wrapState = 801.88 ∧
    posZMoved noControls 1 wrapState > 800 ∧
    (update noControls 1 wrapState).1.posZ = -800 ∧
    (update noControls 1 wrapState).1.posZ < 0 ∧
    |(update noControls 1 wrapState).1.posZ -
      (-800 + (posZMoved noControls 1 wrapState - 800))| ≤ 2 ∧
    (∀ (c : FlightControls) (dt : ℝ) (s : Flight),
      -800 ≤ (update c dt s).1.posX ∧ (update c dt s).1.posX ≤ 800 ∧
      -800 ≤ (update c dt s).1.posZ ∧ (update c dt s).1.posZ ≤ 800) ∧
    (∀ (c : FlightControls) (dt : ℝ) (s : Flight),
      (update c dt s).1.posX =
        wrapCoord (s.posX + forwardX c dt s * speedAfterGround c dt s) ∧
      (update c dt s).1.posZ =
        wrapCoord (s.posZ + forwardZ c dt s * speedAfterGround c dt s)) := by
  have hz : (update noControls 1 wrapState).1.posZ = -800 := by
    show wrapCoord (posZMoved noControls 1 wrapState) = -800
    rw [wrapState_posZMoved]
    unfold wrapCoord
    norm_num
  refine ⟨wrapState_posZMoved, by rw [wrapState_posZMoved]; norm_num, hz,
    by rw [hz]; norm_num, ?_, fun c dt s => ?_, fun c dt s => ⟨rfl, rfl⟩⟩
  · rw [hz, wrapState_posZMoved]
    rw [show (-800 : ℝ) - (-800 + (801.88 - 800)) = -1.88 by norm_num]
    rw [abs_of_nonpos (by norm_num)]
    norm_num
  · exact ⟨(wrapCoord_mem (posXMoved c dt s)).1, (wrapCoord_mem (posXMoved c dt s)).2,
      (wrapCoord_mem (posZMoved c dt s)).1, (wrapCoord_mem (posZMoved c dt s)).2⟩

/-- Airborne test state with a positive pitch and a trim already above the
pitch: altitude 10, speed 1, pitch 0.1 rad, pitchTrim 0.25. -/
noncomputable def trimState : Flight :=
  { init with speed := 1, posY := 10, rotX := 0.1, pitchTrim := 0.25 }

lemma trimState_speedAfterDrag : speedAfterDrag noControls 1 trimState = 0.88 := by
  have ht : throttleNew noControls 1 trimState = 0 := rfl
  unfold speedAfterDrag speedPreDrag
  rw [ht]
  norm_num [trimState, init, max_def]

lemma trimState_notRunway : ¬ onRunwayNew trimState := by
  intro h
  have := h.2
  norm_num [trimState, init] at this

lemma trimState_notStalling : ¬ isStallingNew noControls 1 trimState := by
  intro h
  have := h.1
  rw [trimState_speedAfterDrag] at this
  norm_num [trimState, init] at this

lemma trimState_lift : liftNew noControls 1 trimState = 0.302016 := by
  unfold liftNew baseLift
  rw [if_neg trimState_notStalling, trimState_speedAfterDrag]
  norm_num [trimState, init, angleOfAttackEffect, max_def]

lemma trimState_posYAfterGravity :
    posYAfterGravity noControls 1 trimState = 10.002016 := by
  unfold posYAfterGravity posYAfterLift
  rw [if_pos trimState_notRunway, trimState_speedAfterDrag,
    if_pos (by norm_num : (0.88 : ℝ) > 0.8), trimState_lift,
    if_neg trimState_notStalling]
  norm_num [trimState, init]

lemma trimState_speedAfterGround :
    speedAfterGround noControls 1 trimState = 0.88 := by
  unfold speedAfterGround
  rw [trimState_posYAfterGravity, if_neg (by norm_num : ¬ (10.002016 : ℝ) < 0.8)]
  exact trimState_speedAfterDrag

lemma trimState_pitchInputNew : pitchInputNew noControls 1 trimState = 0 := by
  unfold pitchInputNew targetPitchInput
  norm_num [trimState, init, noControls]

lemma trimState_pitchTrim :
    (update noControls 1 trimState).1.pitchTrim = 0.28 := by
  show pitchTrimNew noControls 1 trimState = 0.28
  unfold pitchTrimNew
  rw [trimState_pitchInputNew, trimState_speedAfterGround,
    if_pos (by norm_num : |(0 : ℝ)| < 0.1 ∧ (0.88 : ℝ) > 0.4)]
  norm_num [trimState, init, max_def, min_def]

/-- C5 counterexample: at the trim state the auto-trim conditions hold
(smoothed pitch input 0, speed 0.88 > 0.4), yet the new pitchTrim (0.28)
is strictly farther from the current pitch angle (0.1) than the old one
(0.25) was — the trim does not drift toward the pitch angle. -/
theorem C5_counterexample :
    |pitchInputNew noControls 1 trimState| < 0.1 ∧
    speedAfterGround noControls 1 trimState > 0.4 ∧
    (update noControls 1 trimState).1.pitchTrim = 0.28 ∧
    ¬ (|(update noControls 1 trimState).1.pitchTrim - trimState.rotX| ≤
        |trimState.pitchTrim - trimState.rotX|) := by
  refine ⟨?_, ?_, trimState_pitchTrim, ?_⟩
  · rw [trimState_pitchInputNew]
    norm_num
  · rw [trimState_speedAfterGround]
    norm_num
  · rw [trimState_pitchTrim]
    norm_num [trimState, init]
    rw [abs_of_nonneg (by norm_num), abs_of_nonneg (by norm_num)]
    norm_num

lemma throttleNew_dt0 {c : FlightControls} {s : Flight}
    (h0 : 0 ≤ s.throttle) (h1 : s.throttle ≤ 1) :
    throttleNew c 0 s = s.throttle := by
  unfold throttleNew throttleAfterUp
  split_ifs <;> simp only [mul_zero, add_zero, sub_zero]
  · rw [min_eq_left h1, max_eq_left h0]
  · rw [max_eq_left h0]
  · rw [min_eq_left h1]

lemma speedAfterDrag_dt0 {c : FlightControls} {s : Flight}
    (hs0 : 0 ≤ s.speed) (hs1 : 0 < s.throttle → s.speed ≤ 3.5 * s.throttle)
    (ht0 : 0 ≤ s.throttle) (ht1 : s.throttle ≤ 1) :
    speedAfterDrag c 0 s = s.speed := by
  unfold speedAfterDrag speedPreDrag
  rw [throttleNew_dt0 ht0 ht1]
  split_ifs with h
  · simp only [mul_zero, add_zero, sub_zero]
    rw [min_eq_left (hs1 h), max_eq_left hs0]
  · simp only [mul_zero, sub_zero]
    rw [max_eq_left hs0, max_eq_left hs0]

lemma posYAfterLift_dt0 (c : FlightControls) (s : Flight) :
    posYAfterLift c 0 s = s.posY := by
  unfold posYAfterLift
  split_ifs <;> simp

lemma posYAfterGravity_dt0 (c : FlightControls) (s : Flight) :
    posYAfterGravity c 0 s = s.posY := by
  unfold posYAfterGravity
  rw [posYAfterLift_dt0]
  split_ifs <;> simp

lemma posYFinal_dt0 {c : FlightControls} {s : Flight}
    (hy0 : 0.8 ≤ s.posY) (hy1 : s.posY ≤ 200) :
    posYFinal c 0 s = s.posY := by
  unfold posYFinal posYAfterGround
  rw [posYAfterGravity_dt0, if_neg (not_lt.mpr hy0), if_neg (not_lt.mpr hy1)]

lemma speedAfterGround_dt0 {c : FlightControls} {s : Flight}
    (hy0 : 0.8 ≤ s.posY)
    (hs0 : 0 ≤ s.speed) (hs1 : 0 < s.throttle → s.speed ≤ 3.5 * s.throttle)
    (ht0 : 0 ≤ s.throttle) (ht1 : s.throttle ≤ 1) :
    speedAfterGround c 0 s = s.speed := by
  unfold speedAfterGround
  rw [posYAfterGravity_dt0, if_neg (not_lt.mpr hy0)]
  exact speedAfterDrag_dt0 hs0 hs1 ht0 ht1

lemma avXAfterGround_dt0 {c : FlightControls} {s : Flight}
    (hy0 : 0.8 ≤ s.posY) : avXAfterGround c 0 s = s.avX := by
  unfold avXAfterGround
  rw [posYAfterGravity_dt0]
  exact if_neg fun h => (not_lt.mpr hy0) h.1

lemma avZAfterGround_dt0 {c : FlightControls} {s : Flight}
    (hy0 : 0.8 ≤ s.posY) : avZAfterGround c 0 s = s.avZ := by
  unfold avZAfterGround
  rw [posYAfterGravity_dt0]
  exact if_neg fun h => (not_lt.mpr hy0) h.1

lemma pitchInputNew_dt0 (c : FlightControls) (s : Flight) :
    pitchInputNew c 0 s = s.pitchInput := by
  unfold pitchInputNew
  simp

lemma rollInputNew_dt0 (c : FlightControls) (s : Flight) :
    rollInputNew c 0 s = s.rollInput := by
  unfold rollInputNew
  simp

lemma yawInputNew_dt0 (c : FlightControls) (s : Flight) :
    yawInputNew c 0 s = s.yawInput := by
  unfold yawInputNew
  simp

lemma pitchTrimNew_dt0 {c : FlightControls} {s : Flight}
    (hp0 : -0.3 ≤ s.pitchTrim) (hp1 : s.pitchTrim ≤ 0.3) :
    pitchTrimNew c 0 s = s.pitchTrim := by
  unfold pitchTrimNew
  split_ifs
  · simp only [mul_zero, add_zero]
    rw [min_eq_right hp1, max_eq_right hp0]
  · rfl

lemma rollTrimNew_dt0 {c : FlightControls} {s : Flight}
    (hr0 : -0.2 ≤ s.rollTrim) (hr1 : s.rollTrim ≤ 0.2) :
    rollTrimNew c 0 s = s.rollTrim := by
  unfold rollTrimNew
  split_ifs
  · simp only [mul_zero, add_zero]
    rw [min_eq_right hr1, max_eq_right hr0]
  · rfl

lemma avXFinal_dt0 {c : FlightControls} {s : Flight}
    (hy0 : 0.8 ≤ s.posY) : avXFinal c 0 s = s.avX := by
  unfold avXFinal avXAfterStability avXAfterControls
  rw [avXAfterGround_dt0 hy0]
  split_ifs <;> norm_num [max_def]

lemma avYFinal_dt0 (c : FlightControls) (s : Flight) :
    avYFinal c 0 s = s.avY := by
  unfold avYFinal avYAfterStability avYAfterControls
  split_ifs <;> norm_num [max_def]

lemma avZFinal_dt0 {c : FlightControls} {s : Flight}
    (hy0 : 0.8 ≤ s.posY) : avZFinal c 0 s = s.avZ := by
  unfold avZFinal avZAfterStability avZAfterControls
  rw [avZAfterGround_dt0 hy0]
  split_ifs <;> norm_num [max_def]

lemma rotXNew_dt0 {c : FlightControls} {s : Flight}
    (hx0 : -(π / 3) ≤ s.rotX) (hx1 : s.rotX ≤ π / 3) :
    rotXNew c 0 s = s.rotX := by
  unfold rotXNew
  simp only [mul_zero, add_zero]
  rw [min_eq_right hx1, max_eq_right hx0]

lemma rotYNew_dt0 (c : FlightControls) (s : Flight) :
    rotYNew c 0 s = s.rotY := by
  unfold rotYNew
  simp

lemma rotZNew_dt0 {c : FlightControls} {s : Flight}
    (hz0 : -(π / 2) ≤ s.rotZ) (hz1 : s.rotZ ≤ π / 2) :
    rotZNew c 0 s = s.rotZ := by
  unfold rotZNew
  simp only [mul_zero, add_zero]
  rw [min_eq_right hz1, max_eq_right hz0]

/-- C4 (amended): `update(controls, 0)` from a state within the documented
bounds leaves throttle, speed, altitude, rotation, angular velocity, the
smoothed inputs and the trims unchanged, and the gear toggle still fires;
but — contrary to the original claim — position.x and position.z still
advance by the forward direction times the speed (the translation carries no
`dt` factor), and lift and drag are recomputed from the current state
(drag becomes `speed² * 0.08` regardless of its stored value). -/
theorem C4_dt0_step (c : FlightControls) (s : Flight)
    (ht0 : 0 ≤ s.throttle) (ht1 : s.throttle ≤ 1)
    (hs0 : 0 ≤ s.speed) (hs1 : 0 < s.throttle → s.speed ≤ 3.5 * s.throttle)
    (hy0 : 0.8 ≤ s.posY) (hy1 : s.posY ≤ 200)
    (hx0 : -(π / 3) ≤ s.rotX) (hx1 : s.rotX ≤ π / 3)
    (hz0 : -(π / 2) ≤ s.rotZ) (hz1 : s.rotZ ≤ π / 2)
    (hp0 : -0.3 ≤ s.pitchTrim) (hp1 : s.pitchTrim ≤ 0.3)
    (hr0 : -0.2 ≤ s.rollTrim) (hr1 : s.rollTrim ≤ 0.2) :
    (update c 0 s).1.throttle = s.throttle ∧
    (update c 0 s).1.speed = s.speed ∧
    (update c 0 s).1.posY = s.posY ∧
    (update c 0 s).1.rotX = s.rotX ∧
    (update c 0 s).1.rotY = s.rotY ∧
    (update c 0 s).1.rotZ = s.rotZ ∧
    (update c 0 s).1.avX = s.avX ∧
    (update c 0 s).1.avY = s.avY ∧
    (update c 0 s).1.avZ = s.avZ ∧
    (update c 0 s).1.pitchInput = s.pitchInput ∧
    (update c 0 s).1.rollInput = s.rollInput ∧
    (update c 0 s).1.yawInput = s.yawInput ∧
    (update c 0 s).1.pitchTrim = s.pitchTrim ∧
    (update c 0 s).1.rollTrim = s.rollTrim ∧
    (update c 0 s).1.isGearDown =
      (if c.landingGear then ! s.isGearDown else s.isGearDown) ∧
    (update c 0 s).1.posX = wrapCoord (s.posX + Real.sin s.rotY * s.speed) ∧
    (update c 0 s).1.posZ =
      wrapCoord (s.posZ + Real.cos s.rotX * Real.cos s.rotY * s.speed) ∧
    (update c 0 s).1.drag = s.speed * s.speed * 0.08 ∧
    (update c 0 s).1.lift =
      (if isStallingNew c 0 s then 0.2 else 1) *
        (s.speed * s.speed * 0.3 * max 0.1 (angleOfAttackEffect s.rotX)) := by
  refine ⟨throttleNew_dt0 ht0 ht1,
    speedAfterGround_dt0 hy0 hs0 hs1 ht0 ht1,
    posYFinal_dt0 hy0 hy1,
    rotXNew_dt0 hx0 hx1, rotYNew_dt0 c s, rotZNew_dt0 hz0 hz1,
    avXFinal_dt0 hy0, avYFinal_dt0 c s, avZFinal_dt0 hy0,
    pitchInputNew_dt0 c s, rollInputNew_dt0 c s, yawInputNew_dt0 c s,
    pitchTrimNew_dt0 hp0 hp1, rollTrimNew_dt0 hr0 hr1, rfl, ?_, ?_, ?_, ?_⟩
  · show wrapCoord (posXMoved c 0 s) = _
    unfold posXMoved forwardX
    rw [rotYNew_dt0, speedAfterGround_dt0 hy0 hs0 hs1 ht0 ht1]
  · show wrapCoord (posZMoved c 0 s) = _
    unfold posZMoved forwardZ
    rw [rotXNew_dt0 hx0 hx1, rotYNew_dt0, speedAfterGround_dt0 hy0 hs0 hs1 ht0 ht1]
  · show dragNew c 0 s = _
    unfold dragNew
    rw [speedAfterDrag_dt0 hs0 hs1 ht0 ht1]
  · show liftNew c 0 s = _
    unfold liftNew baseLift
    rw [speedAfterDrag_dt0 hs0 hs1 ht0 ht1]
    split_ifs <;> ring

/-- Witness for the amended C4 at the initial state with no controls. -/
theorem C4_dt0_step_witness :
    (update noControls 0 init).1.throttle = init.throttle ∧
    (update noControls 0 init).1.speed = init.speed ∧
    (update noControls 0 init).1.posY = init.posY ∧
    (update noControls 0 init).1.rotX = init.rotX ∧
    (update noControls 0 init).1.rotY = init.rotY ∧
    (update noControls 0 init).1.rotZ = init.rotZ ∧
    (update noControls 0 init).1.avX = init.avX ∧
    (update noControls 0 init).1.avY = init.avY ∧
    (update noControls 0 init).1.avZ = init.avZ ∧
    (update noControls 0 init).1.pitchInput = init.pitchInput ∧
    (update noControls 0 init).1.rollInput = init.rollInput ∧
    (update noControls 0 init).1.yawInput = init.yawInput ∧
    (update noControls 0 init).1.pitchTrim = init.pitchTrim ∧
    (update noControls 0 init).1.rollTrim = init.rollTrim ∧
    (update noControls 0 init).1.isGearDown =
      (if noControls.landingGear then ! init.isGearDown else init.isGearDown) ∧
    (update noControls 0 init).1.posX =
      wrapCoord (init.posX + Real.sin init.rotY * init.speed) ∧
    (update noControls 0 init).1.posZ =
      wrapCoord (init.posZ + Real.cos init.rotX * Real.cos init.rotY * init.speed) ∧
    (update noControls 0 init).1.drag = init.speed * init.speed * 0.08 ∧
    (update noControls 0 init).1.lift =
      (if isStallingNew noControls 0 init then 0.2 else 1) *
        (init.speed * init.speed * 0.3 * max 0.1 (angleOfAttackEffect init.rotX)) :=
  C4_dt0_step noControls init
    (by norm_num [init]) (by norm_num [init])
    (by norm_num [init]) (fun h => absurd h (by norm_num [init]))
    (by norm_num [init]) (by norm_num [init])
    (by rw [show init.rotX = 0 from rfl]; exact neg_nonpos.mpr (by positivity))
    (by rw [show init.rotX = 0 from rfl]; positivity)
    (by rw [show init.rotZ = 0 from rfl]; exact neg_nonpos.mpr (by positivity))
    (by rw [show init.rotZ = 0 from rfl]; positivity)
    (by norm_num [init]) (by norm_num [init])
    (by norm_num [init]) (by norm_num [init])

/-- On-runway test state moving at speed 3 (throttle 0), otherwise as at
construction: position (0, 0.8, -50), level attitude. -/
noncomputable def dtZeroState : Flight := { init with speed := 3 }

/-- C4 counterexample: a call with `dt = 0` from the on-runway state with
speed 3 still moves the aircraft: position.z changes from -50 to -47, so
`update(controls, 0)` does not leave all continuous fields unchanged. -/
theorem C4_counterexample :
    (update noControls 0 dtZeroState).1.posZ ≠ dtZeroState.posZ := by
  have hz : (update noControls 0 dtZeroState).1.posZ =
      wrapCoord (dtZeroState.posZ +
        Real.cos dtZeroState.rotX * Real.cos dtZeroState.rotY * dtZeroState.speed) := by
    show wrapCoord (posZMoved noControls 0 dtZeroState) = _
    unfold posZMoved forwardZ
    rw [@rotXNew_dt0 noControls dtZeroState
        (by rw [show dtZeroState.rotX = 0 from rfl]; exact neg_nonpos.mpr (by positivity))
        (by rw [show dtZeroState.rotX = 0 from rfl]; positivity),
      rotYNew_dt0,
      @speedAfterGround_dt0 noControls dtZeroState
        (by norm_num [dtZeroState, init])
        (by norm_num [dtZeroState, init])
        (fun h => absurd h (by norm_num [dtZeroState, init]))
        (by norm_num [dtZeroState, init]) (by norm_num [dtZeroState, init])]
  rw [hz]
  norm_num [dtZeroState, init, wrapCoord]

end FlightPhysics
